import Mathlib

/-
Verification of the terminal-UI framework (pixel grids, diff display, screen
composition, axes, themes, image metadata).  Each Lean definition is a shallow
embedding of the corresponding Python definition in the repository; doc
comments name the source location.  Definitions whose doc comment starts with
"Modelled from the spec" instead transcribe the specification's words, for
comparison with the code-derived definitions.
-/

/-- One character cell (`pixel.py`, class `Pixel`): a glyph `char` plus a theme.
The source stores a `ThemeDict`; here the theme is abstracted to the token the
claims consume: `Pixel.__eq__` compares `char` and `themes` componentwise, and
`printable_str` is `f"{themes}{char}{END}"`.  All pixels in the claims under
study differ only in `char`, where this abstraction is exact. -/
structure Pixel where
  char : String
  themes : String
deriving DecidableEq

/-- `Colors.END` escape string (`color.py` line 243). -/
def colorsEndCode : String := "\x1b[0m"

/-- `Pixel.printable_str` (`pixel.py` line 56): theme string, then the glyph,
then the reset code. -/
def Pixel.printable_str (p : Pixel) : String :=
  p.themes ++ p.char ++ colorsEndCode

/-- A grid of pixels (`pixel_grid.py`, class `PixelGrid`).  `coord_x`/`coord_y`
are the grid's `coordinates` in char units (`Coordinate.x_char`/`y_char`, Python
ints); `size_x`/`size_y` are `size.x_char`/`size.y_char`.  The source size is a
`Coordinate` (pair of `Axis`); the claims compare grids only through their char
extents, which is what we record. -/
structure PixelGrid where
  coord_x : Int
  coord_y : Int
  size_x : Nat
  size_y : Nat
  default_pixel : Pixel
  cells : List (List Pixel)
deriving DecidableEq

/-- `PixelGrid.clear` (`pixel_grid.py` lines 332-335): every existing cell is
`set` to the default pixel in place, so the row shape is preserved. -/
def PixelGrid.clear (g : PixelGrid) : PixelGrid :=
  { g with cells := g.cells.map (fun row => row.map (fun _ => g.default_pixel)) }

/-- `PixelGrid.to_string` (`pixel_grid.py` lines 384-390): rows of printable
strings joined by newlines. -/
def PixelGrid.to_string (g : PixelGrid) : String :=
  String.intercalate "\n" (g.cells.map (fun row => String.join (row.map Pixel.printable_str)))

/-- `PixelGrid.overlay` (`pixel_grid.py` lines 347-382).  The method's first
statement, `other.size.screen_size = (self.size.x_char, self.size.y_char)`
(line 358), assigns a plain tuple to `Coordinate.screen_size`; that property's
setter stores the value and then reads `new_screen_size.x` (`coordinate.py`
line 55) — an attribute a tuple does not have.  Every call of `overlay`
therefore raises AttributeError before the overlay loop is reached, for any
destination and any source (even an empty one): no destination cell is ever
written, no value is returned, and the only mutation before the exception is
the source size's cached `_screen_size` tuple, which nothing observes.  (Had
the loop been reached, its `for x, pix in row:` — not `enumerate(row)` —
would tuple-unpack each Pixel and raise in turn, so the compare-and-assign
lines 376-380 are unreachable either way.) -/
def PixelGrid.overlay (_dest _src : PixelGrid) : Except String (PixelGrid × Bool) :=
  Except.error "AttributeError: tuple object has no attribute x"

/-- Update one cell of a cell matrix (out-of-range indices leave it unchanged). -/
def writeCell (cells : List (List Pixel)) (y x : Nat) (p : Pixel) : List (List Pixel) :=
  cells.set y ((cells.getD y []).set x p)

/-- Read one cell of a cell matrix. -/
def readCell (cells : List (List Pixel)) (y x : Nat) : Option Pixel :=
  (cells.get? y).bind (fun r => r.get? x)

/-- Modelled from the spec: one source row of `overlay` steps 3-5 — for every
cell `(x, y)` of the source compute destination `(x + offset.x, y + offset.y)`,
skip silently if outside `[0, size)` in either dimension, mark `changed` when
the rendered strings differ, and overwrite the destination cell. -/
def specOverlayRow (size_x size_y : Nat) (off_x off_y : Int) (y : Nat)
    (row : List Pixel) (acc : List (List Pixel) × Bool) : List (List Pixel) × Bool :=
  row.enum.foldl
    (fun acc2 xp =>
      let dx : Int := (xp.1 : Int) + off_x
      let dy : Int := (y : Int) + off_y
      if 0 ≤ dx ∧ dx < (size_x : Int) ∧ 0 ≤ dy ∧ dy < (size_y : Int) then
        let cur := readCell acc2.1 dy.toNat dx.toNat
        let changed := acc2.2 || decide (cur.map Pixel.printable_str ≠ some xp.2.printable_str)
        (writeCell acc2.1 dy.toNat dx.toNat xp.2, changed)
      else acc2)
    acc

/-- Modelled from the spec: `overlay(source) -> changed` writes each source cell
to the destination at the source's coordinate offset with silent clipping, and
reports whether any destination cell's rendered form changed. -/
def specOverlay (dest src : PixelGrid) : PixelGrid × Bool :=
  let res := src.cells.enum.foldl
    (fun acc yr => specOverlayRow dest.size_x dest.size_y src.coord_x src.coord_y yr.1 yr.2 acc)
    (dest.cells, false)
  ({ dest with cells := res.1 }, res.2)

/-- The default space pixel (`Pixel()` with no theme). -/
def spacePixel : Pixel := { char := " ", themes := "" }

/-- A 2x2 destination grid of default pixels at the origin. -/
def demoDest : PixelGrid :=
  { coord_x := 0, coord_y := 0, size_x := 2, size_y := 2,
    default_pixel := spacePixel,
    cells := [[spacePixel, spacePixel], [spacePixel, spacePixel]] }

/-- A 1x1 source grid of default pixels positioned entirely outside the
destination, at char coordinates (-5, -5). -/
def demoSrcOutside : PixelGrid :=
  { coord_x := -5, coord_y := -5, size_x := 1, size_y := 1,
    default_pixel := spacePixel, cells := [[spacePixel]] }

/-- A terminal output action emitted by the display (`cursor.set_pos`,
`cursor.clear_screen`, `print(..., end="")`, and the final flush). -/
inductive TermCmd where
  | clearScreen : TermCmd
  | setPos (x y : Nat) : TermCmd
  | write (s : String) : TermCmd
  | flush : TermCmd
deriving DecidableEq

/-- The state of `Display` (`display.py`): the current grid, the previous grid,
and whether the two are the *same Python object*.  `PixelGrid` defines no
`__eq__`, so the `==` on line 58 of `display.py` is object identity; every
write path of `Display` stores `previous` as a `deepcopy` (lines 31, 52, 99,
145), a fresh object, so in every reachable state `prev_is_same_object` is
false.  We carry the flag explicitly to embed the identity test faithfully. -/
structure DisplayState where
  current : PixelGrid
  previous : PixelGrid
  prev_is_same_object : Bool
deriving DecidableEq

/-- `Display.refresh_display` (`display.py` lines 45-52): clear the terminal,
print the whole grid string, snapshot current into previous (deepcopy). -/
def refreshDisplay (st : DisplayState) : List TermCmd × DisplayState :=
  ([TermCmd.clearScreen, TermCmd.write st.current.to_string, TermCmd.flush],
   { st with previous := st.current, prev_is_same_object := false })

/-- One changed-cell check of the diff loop (`display.py` lines 74-80): compare
the current pixel with `previous.grid[y][x]` (IndexError when the previous row
is too short — the `except` branch prints diagnostics and exits, modelled as an
error); on a difference emit `cursor.set_pos(x, y)` and print the pixel. -/
def rowDiffCmds (off : Nat) (y : Nat) : List Pixel → List Pixel → Except String (List TermCmd)
  | [], _ => Except.ok []
  | _ :: _, [] => Except.error "IndexError: list index out of range"
  | p :: ps, q :: qs => do
      let rest ← rowDiffCmds (off + 1) y ps qs
      Except.ok ((if p ≠ q then [TermCmd.setPos off y, TermCmd.write p.printable_str] else []) ++ rest)

/-- The row loop of the diff (`display.py` line 72): enumerate current rows and
index the previous grid by row number. -/
def gridDiffCmds (y : Nat) : List (List Pixel) → List (List Pixel) → Except String (List TermCmd)
  | [], _ => Except.ok []
  | _ :: _, [] => Except.error "IndexError: list index out of range"
  | c :: cs, p :: ps => do
      let here ← rowDiffCmds 0 y c p
      let rest ← gridDiffCmds (y + 1) cs ps
      Except.ok (here ++ rest)

/-- `Display.anti_flash_refresh_display` (`display.py` lines 54-99).  Branches
in source order: the (identity) skip test, the size comparison falling back to
a full refresh, the row-count mismatch early return (which does *not* update
`previous`), then the per-cell diff loop followed by the unconditional
`cursor.set_pos(0, 0)` and flush, and the `previous = deepcopy(current)`
snapshot. -/
def antiFlashRefreshDisplay (st : DisplayState) :
    Except String (List TermCmd × DisplayState) :=
  if st.prev_is_same_object then Except.ok ([], st)
  else if (st.previous.size_x, st.previous.size_y) ≠ (st.current.size_x, st.current.size_y) then
    Except.ok (refreshDisplay st)
  else if st.current.cells.length ≠ st.previous.cells.length then
    Except.ok ([TermCmd.write "Display size mismatch."], st)
  else
    match gridDiffCmds 0 st.current.cells st.previous.cells with
    | Except.error e => Except.error e
    | Except.ok body =>
        Except.ok (body ++ [TermCmd.setPos 0 0, TermCmd.flush],
          { st with previous := st.current, prev_is_same_object := false })

/-- Number of cursor-positioning commands in an output sequence. -/
def countSetPos (cmds : List TermCmd) : Nat :=
  cmds.countP (fun c => match c with | TermCmd.setPos _ _ => true | _ => false)

/-- Number of cell positions at which two cell matrices differ (rows and
columns paired up positionally). -/
def changedCellCount : List (List Pixel) → List (List Pixel) → Nat
  | [], _ => 0
  | _ :: _, [] => 0
  | c :: cs, p :: ps =>
      (c.zip p).countP (fun q => decide (q.1 ≠ q.2)) + changedCellCount cs ps

/-- The pixel for a glyph with no theme. -/
def glyphPixel (c : String) : Pixel := { char := c, themes := "" }

/-- A 1x4 all-space grid at the origin. -/
def demoRowGrid : PixelGrid :=
  { coord_x := 0, coord_y := 0, size_x := 4, size_y := 1,
    default_pixel := spacePixel,
    cells := [[spacePixel, spacePixel, spacePixel, spacePixel]] }

/-- A 1x4 grid differing from `demoRowGrid` in one contiguous run of two cells
(positions 1 and 2 of row 0). -/
def demoRowGridRun : PixelGrid :=
  { demoRowGrid with
    cells := [[spacePixel, glyphPixel "a", glyphPixel "b", spacePixel]] }

/-- A reachable display state: previous all-space, current with a single run of
two changed cells, previous held as a distinct (deepcopied) object. -/
def demoRunState : DisplayState :=
  { current := demoRowGridRun, previous := demoRowGrid, prev_is_same_object := false }

/-- A reachable display state whose two grids are pixel-for-pixel equal in
content but, as in every reachable state of `Display`, distinct objects. -/
def demoEqState : DisplayState :=
  { current := demoRowGrid, previous := demoRowGrid, prev_is_same_object := false }

/-- `UnitNames` (`axis.py` lines 4-6). -/
inductive UnitNames where
  | CHAR : UnitNames
  | PERCENT : UnitNames
deriving DecidableEq

/-- `Axis` (`axis.py`): the unit, the reference extent `_axis_size`, and the
three stored fields `_value`, `_char_value`, `_percent_value`.  Python stores
ints and floats; ℚ models their exact arithmetic (`/` is true division). -/
structure Axis where
  unit : UnitNames
  axis_size : ℚ
  value : ℚ
  char_value : ℚ
  percent_value : ℚ
deriving DecidableEq

/-- `Axis._get_char_value` (`axis.py` lines 108-119): the stored value for a
CHAR axis, `value * axis_size` for a PERCENT axis. -/
def Axis.get_char_value (a : Axis) : ℚ :=
  match a.unit with
  | UnitNames.CHAR => a.value
  | UnitNames.PERCENT => a.value * a.axis_size

/-- `Axis._get_percent_value` (`axis.py` lines 121-132): the stored value for a
PERCENT axis; for a CHAR axis `value / axis_size`, guarded to 0 when
`axis_size == 0`. -/
def Axis.get_percent_value (a : Axis) : ℚ :=
  match a.unit with
  | UnitNames.PERCENT => a.value
  | UnitNames.CHAR => if a.axis_size ≠ 0 then a.value / a.axis_size else 0

/-- `Axis._get_value` (`axis.py` lines 90-106): the stored value when the
requested unit equals the axis's own unit, otherwise the converted value. -/
def Axis.get_value (a : Axis) (u : UnitNames) : ℚ :=
  if a.unit = u then a.value
  else match u with
    | UnitNames.CHAR => a.get_char_value
    | UnitNames.PERCENT => a.get_percent_value

/-- `Axis.__init__` (`axis.py` lines 23-42): store the value, then derive the
char and percent views from it. -/
def mkAxis (value : ℚ) (unit : UnitNames) (axis_size : ℚ) : Axis :=
  let base : Axis :=
    { unit := unit, axis_size := axis_size, value := value,
      char_value := 0, percent_value := 0 }
  { base with char_value := base.get_char_value,
              percent_value := base.get_percent_value }

/-- The `value` setter (`axis.py` lines 48-52).  The source assigns
`self._char_value = self.char_value` and `self._percent_value =
self.percent_value`: the right-hand sides are the property *getters*, which
return the cached fields unchanged, so both assignments are no-ops. -/
def Axis.set_value (a : Axis) (v : ℚ) : Axis :=
  let a1 := { a with value := v }
  let a2 := { a1 with char_value := a1.char_value }
  { a2 with percent_value := a2.percent_value }

/-- The `char_value` setter (`axis.py` lines 58-63): store the new char value,
then `self._value = self._get_value(UnitNames.CHAR)` — which, for a CHAR-unit
axis, returns the *old* `_value` — then recompute `_percent_value` from the
(unchanged) `_value`. -/
def Axis.set_char_value (a : Axis) (v : ℚ) : Axis :=
  let a1 := { a with char_value := v }
  let a2 := { a1 with value := a1.get_value UnitNames.CHAR }
  { a2 with percent_value := a2.get_percent_value }

/-- The `percent_value` setter (`axis.py` lines 69-74), symmetric to the
`char_value` setter. -/
def Axis.set_percent_value (a : Axis) (v : ℚ) : Axis :=
  let a1 := { a with percent_value := v }
  let a2 := { a1 with value := a1.get_value UnitNames.PERCENT }
  { a2 with char_value := a2.get_char_value }

/-- `ColorType` (`color.py` lines 10-14). -/
inductive ColorType where
  | fore : ColorType
  | back : ColorType
  | style : ColorType
  | other : ColorType
deriving DecidableEq

/-- `Color` (`color.py`): an escape-code string and a color type.
`Color.__eq__` compares only the escape strings. -/
structure Color where
  code : String
  ctype : ColorType
deriving DecidableEq

/-- `Colors.END` (`color.py` line 243): the reset escape code, typed OTHER. -/
def colorsEnd : Color := { code := "\x1b[0m", ctype := ColorType.other }

/-- The reduced state of a `PixelTheme` (`pixel_theme.py` lines 19-22):
foreground, background, accumulated style colors, accumulated other colors. -/
structure ThemeState where
  fg : Option Color
  bg : Option Color
  styles : List Color
  others : List Color
deriving DecidableEq

/-- The empty reduced state (fields as initialised in `PixelTheme.__init__`). -/
def emptyThemeState : ThemeState :=
  { fg := none, bg := none, styles := [], others := [] }

/-- One iteration of `PixelTheme._list_to_theme` (`pixel_theme.py` lines
87-109): a color equal to `Colors.END` (string comparison, per `Color.__eq__`)
resets all four buckets, and then — the `if` falls through to the `match` — the
color is still dispatched on its type, so the reset color itself lands in the
bucket of its color type. -/
def stepColor (s : ThemeState) (c : Color) : ThemeState :=
  let s1 := if c.code = colorsEnd.code then emptyThemeState else s
  match c.ctype with
  | ColorType.fore => { s1 with fg := some c }
  | ColorType.back => { s1 with bg := some c }
  | ColorType.style => { s1 with styles := s1.styles ++ [c] }
  | ColorType.other => { s1 with others := s1.others ++ [c] }

/-- `PixelTheme._list_to_theme` (`pixel_theme.py` lines 83-109): fold the color
list over the *current* reduced state.  The method never clears the four
buckets before iterating, so re-running it accumulates onto earlier results. -/
def list_to_theme (init : ThemeState) (cs : List Color) : ThemeState :=
  cs.foldl stepColor init

/-- `PixelTheme._to_str` (`pixel_theme.py` lines 63-81): other colors, then
style colors, then foreground, then background. -/
def themeToStr (s : ThemeState) : String :=
  String.join (s.others.map Color.code) ++ String.join (s.styles.map Color.code)
    ++ (match s.fg with | some c => c.code | none => "")
    ++ (match s.bg with | some c => c.code | none => "")

/-- `PixelTheme` (`pixel_theme.py`): the raw color list, the reduced state, and
the cached serialized string. -/
structure PixelTheme where
  color_list : List Color
  state : ThemeState
  str_value : String
deriving DecidableEq

/-- `PixelTheme.__init__` (`pixel_theme.py` lines 9-27): buckets start empty,
then the `color_scheme` setter reduces the given list. -/
def mkPixelTheme (cs : List Color) : PixelTheme :=
  let st := list_to_theme emptyThemeState cs
  { color_list := cs, state := st, str_value := themeToStr st }

/-- The `color_scheme` setter (`pixel_theme.py` lines 33-37): store the list,
run `_list_to_theme` — over the theme's *existing* buckets, which are not
cleared — and cache the string. -/
def setColorScheme (t : PixelTheme) (cs : List Color) : PixelTheme :=
  let st := list_to_theme t.state cs
  { color_list := cs, state := st, str_value := themeToStr st }

/-- `PixelTheme.add_colors` (`pixel_theme.py` lines 111-119): append to the raw
list, then reassign `color_scheme` with the whole list. -/
def add_colors (t : PixelTheme) (cs : List Color) : PixelTheme :=
  setColorScheme t (t.color_list ++ cs)

/-- `Colors.BOLD` (`color.py` line 165). -/
def boldColor : Color := { code := "\x1b[1m", ctype := ColorType.style }

/-- `Colors.BLUE` (`color.py` line 191). -/
def blueColor : Color := { code := "\x1b[34m", ctype := ColorType.fore }

/-- A visual object on a screen (`base_object.py`, class `BaseObject`): name,
z-index (a Python float, modelled in ℚ), visibility, grid, dirty flag, and the
optional mouse-over point. -/
structure ScreenObj where
  name : String
  z_index : ℚ
  visible : Bool
  grid : PixelGrid
  should_draw : Bool
  mouse_over : Option (Int × Int)
deriving DecidableEq

/-- Stable insert for the z-index order: a new element goes after all existing
elements whose key is less than or equal to its own. -/
def insertByZ (o : ScreenObj) : List ScreenObj → List ScreenObj
  | [] => [o]
  | a :: rest => if o.z_index < a.z_index then o :: a :: rest else a :: insertByZ o rest

/-- `list.sort(key=lambda x: x.z_index)` (`screen_object.py` line 81): Python's
sort is stable; folding stable inserts from the left preserves the original
order of equal keys. -/
def sortByZ (xs : List ScreenObj) : List ScreenObj :=
  xs.foldl (fun acc x => insertByZ x acc) []

/-- `Screen` (`screen_object.py`): the composed grid, the z-sorted object list,
and the screen-level dirty flag. -/
structure Screen where
  grid : PixelGrid
  objects : List ScreenObj
  should_draw : Bool
deriving DecidableEq

/-- `Screen.add_object` (`screen_object.py` lines 73-82): append, re-sort by
z-index, then assign `should_draw = obj.visible` (an overwrite, not an or). -/
def Screen.add_object (s : Screen) (o : ScreenObj) : Screen :=
  { s with objects := sortByZ (s.objects ++ [o]), should_draw := o.visible }

/-- `Screen.remove_object` (`screen_object.py` lines 84-92): assign
`should_draw = obj.visible` (again an overwrite), then remove the object.
Python's `list.remove` matches via `BaseObject.__eq__` (identity of the `grid`
objects); structural equality stands in for it here — the claims under study
only concern the `should_draw` assignment. -/
def Screen.remove_object (s : Screen) (o : ScreenObj) : Screen :=
  { s with should_draw := o.visible,
           objects := s.objects.eraseP (fun a => a == o) }

/-- The overlay loop of `Screen._refresh` (`screen_object.py` lines 158-160):
overlay every object's grid — there is no visibility test — in list order. -/
def overlayAll (g : PixelGrid) : List ScreenObj → Except String PixelGrid
  | [] => Except.ok g
  | o :: os =>
      match PixelGrid.overlay g o.grid with
      | Except.error e => Except.error e
      | Except.ok gb => overlayAll gb.1 os

/-- `Screen._refresh` (`screen_object.py` lines 155-161): clear the screen
grid, overlay every object's grid in list order, reset all dirty flags. -/
def Screen.refresh (s : Screen) : Except String Screen :=
  match overlayAll s.grid.clear s.objects with
  | Except.error e => Except.error e
  | Except.ok g =>
      Except.ok { s with grid := g,
                         objects := s.objects.map (fun o => { o with should_draw := false }),
                         should_draw := false }

/-- `Screen.draw` (`screen_object.py` lines 68-71): refresh only when dirty. -/
def Screen.draw (s : Screen) : Except String Screen :=
  if s.should_draw then s.refresh else Except.ok s

/-- Modelled from the spec: recomposition clears the screen grid and overlays
every *visible* object's grid onto it in ascending z-index order (insertion
order breaking ties); an invisible object contributes nothing. -/
def specCompose (s : Screen) : PixelGrid :=
  ((sortByZ s.objects).filter (fun o => o.visible)).foldl
    (fun g o => (specOverlay g o.grid).1) s.grid.clear

/-- `Screen.get_object_by_coordinates` (`screen_object.py` lines 122-137): for
an empty object list the loop body never runs and `None` is returned.  For any
nonempty list, the first containment test reads
`obj.grid.coordinates.char_y` and `obj.grid.height` — but `Coordinate` has no
attribute `char_y` (its accessor is `y_char`) and `PixelGrid` has no attribute
`height`, so the very first iteration raises AttributeError regardless of the
mouse position. -/
def get_object_by_coordinates (objs : List ScreenObj) (p : Int × Int) :
    Except String (Option ScreenObj) :=
  match objs with
  | [] => Except.ok none
  | _ :: _ => Except.error "AttributeError: Coordinate object has no attribute char_y"

/-- Modelled from the spec: mouse hit-testing selects the topmost visible
object — the visible object with the highest z-index whose screen-space
bounding rectangle contains the position (ties to the later object) — and
returns it with the position translated into its local coordinate space.
Following `screen_object.py`, component 0 of the position is the y (row)
coordinate. -/
def specHitTest (objs : List ScreenObj) (p : Int × Int) :
    Option (ScreenObj × (Int × Int)) :=
  let contains := fun (o : ScreenObj) =>
    o.visible && decide (o.grid.coord_y ≤ p.1) && decide (p.1 < o.grid.coord_y + (o.grid.size_y : Int))
      && decide (o.grid.coord_x ≤ p.2) && decide (p.2 < o.grid.coord_x + (o.grid.size_x : Int))
  let top := (objs.filter contains).foldl
    (fun best o => match best with
      | none => some o
      | some b => if b.z_index ≤ o.z_index then some o else some b) none
  top.map (fun o => (o, (p.1 - o.grid.coord_y, p.2 - o.grid.coord_x)))

/-- An invisible 1x1 object at the origin holding one default pixel. -/
def demoInvisibleObj : ScreenObj :=
  { name := "ghost", z_index := 0, visible := false,
    grid := { coord_x := 0, coord_y := 0, size_x := 1, size_y := 1,
              default_pixel := spacePixel, cells := [[glyphPixel "g"]] },
    should_draw := true, mouse_over := none }

/-- A screen holding only `demoInvisibleObj`, marked dirty. -/
def demoScreenInv : Screen :=
  { grid := demoDest, objects := [demoInvisibleObj], should_draw := true }

/-- A dirty screen holding no objects at all. -/
def demoEmptyScreen : Screen :=
  { grid := demoDest, objects := [], should_draw := true }

/-- A visible 1x1 object at the origin, for the hit-testing claims. -/
def demoHitObj : ScreenObj :=
  { name := "button", z_index := 0, visible := true,
    grid := { coord_x := 0, coord_y := 0, size_x := 1, size_y := 1,
              default_pixel := spacePixel, cells := [[glyphPixel "x"]] },
    should_draw := false, mouse_over := none }

/-- Metadata of an image file (`ascii_image.py`, `_extract_metadata`). -/
structure ImageMetadata where
  height : Int
  width : Int
  base_colors : String
  frame_count : Int
  fps : ℚ
deriving DecidableEq

/-- Whitespace as stripped by Python `str.strip`. -/
def isPySpace (c : Char) : Bool :=
  c = ' ' || c = '\t' || c = '\n' || c = '\r'

/-- Python `str.strip()`: drop whitespace from both ends. -/
def pyStrip (s : String) : String :=
  String.mk (((s.data.dropWhile isPySpace).reverse.dropWhile isPySpace).reverse)

/-- Python `str.split(sep)` for a one-character separator, over the character
list with an accumulator for the current field. -/
def splitOnCharAux (sep : Char) : List Char → List Char → List (List Char)
  | [], acc => [acc.reverse]
  | c :: cs, acc =>
      if c = sep then acc.reverse :: splitOnCharAux sep cs []
      else splitOnCharAux sep cs (c :: acc)

/-- Python `str.split(sep)` for a one-character separator. -/
def pySplit (sep : Char) (s : String) : List String :=
  (splitOnCharAux sep s.data []).map String.mk

/-- Accumulate a decimal digit string into a number; any non-digit fails. -/
def digitsToNat (cs : List Char) : Option Nat :=
  cs.foldl
    (fun acc c =>
      match acc with
      | none => none
      | some n => if c.isDigit then some (n * 10 + (c.toNat - 48)) else none)
    (some 0)

/-- Python `int(s)` on the integer literals that occur in image metadata:
optional sign followed by at least one digit, with surrounding whitespace
stripped; `none` models the ValueError. -/
def pyParseInt (s : String) : Option Int :=
  match (pyStrip s).data with
  | [] => none
  | c :: rest =>
      if c = '-' then
        if rest = [] then none else (digitsToNat rest).map (fun n => -(n : Int))
      else if c = '+' then
        if rest = [] then none else (digitsToNat rest).map (fun n => (n : Int))
      else (digitsToNat (c :: rest)).map (fun n => (n : Int))

/-- Python `int(s)` raising ValueError on failure. -/
def pyIntOfString (s : String) : Except String Int :=
  match pyParseInt s with
  | some n => Except.ok n
  | none => Except.error "ValueError: invalid literal for int"

/-- Python `float(s)`, restricted to the decimal literals that occur in image
metadata: an optionally signed integer part with an optional fractional part. -/
def pyFloatOfString (s : String) : Except String ℚ :=
  match pyParseInt s with
  | some n => Except.ok (n : ℚ)
  | none =>
      match splitOnCharAux '.' (pyStrip s).data [] with
      | [a, b] =>
          match pyParseInt (String.mk a), digitsToNat b with
          | some ia, some nb =>
              if b = [] then Except.error "ValueError: could not convert string to float"
              else
                Except.ok (if a.head? = some '-' then
                    (ia : ℚ) - (nb : ℚ) / ((10 : ℚ) ^ b.length)
                  else (ia : ℚ) + (nb : ℚ) / ((10 : ℚ) ^ b.length))
          | _, _ => Except.error "ValueError: could not convert string to float"
      | _ => Except.error "ValueError: could not convert string to float"

/-- Python `"...".replace("\\033", "\033")` as used on metadata base colors:
replace each textual escape `\033` by the actual escape character, scanning
left to right. -/
def replace033 : List Char → List Char
  | '\\' :: '0' :: '3' :: '3' :: rest => '\x1b' :: replace033 rest
  | c :: rest => c :: replace033 rest
  | [] => []

/-- Boolean string-prefix test over the character lists. -/
def strHasPrefix (pre s : String) : Bool :=
  pre.data.isPrefixOf s.data

/-- Indexing a Python list: IndexError when out of range. -/
def pyIndex (xs : List String) (i : Nat) : Except String String :=
  match xs.get? i with
  | some x => Except.ok x
  | none => Except.error "IndexError: list index out of range"

/-- `_extract_metadata` (`ascii_image.py` lines 206-243): split the first line
on ":", parse height and width, take the last field as the base colors
(defaulting to the reset code when empty, after replacing the textual
escape), and default `frame_count`/`fps` to 1 and 0.0 when exactly three
fields are present; otherwise parse them from fields 2 and 3. -/
def extract_metadata (line : String) : Except String ImageMetadata := do
  let fields := pySplit ':' (pyStrip line)
  let f0 ← pyIndex fields 0
  let height ← pyIntOfString f0
  let f1 ← pyIndex fields 1
  let width ← pyIntOfString f1
  let baseRaw := String.mk (replace033 (fields.getLast?.getD "").data)
  let base_colors := if baseRaw = "" then "\x1b[0m" else baseRaw
  if fields.length = 3 then
    Except.ok { height := height, width := width, base_colors := base_colors,
                frame_count := 1, fps := 0 }
  else do
    let f2 ← pyIndex fields 2
    let frame_count ← pyIntOfString f2
    let f3 ← pyIndex fields 3
    let fps ← pyFloatOfString f3
    Except.ok { height := height, width := width, base_colors := base_colors,
                frame_count := frame_count, fps := fps }

/-- The metadata phase of `Image._get_grids_from_file` (`ascii_image.py` lines
173-181): wrap IndexError from `_extract_metadata` into the descriptive
ValueError (other errors propagate), then compute
`self._frame_delay = 1 / self._fps` — an unguarded division that raises
ZeroDivisionError whenever `fps` is 0, which is precisely the default for a
three-field metadata line. -/
def loadImageMetadata (line : String) : Except String (ImageMetadata × ℚ) := do
  let md ← match extract_metadata line with
    | Except.error e =>
        if strHasPrefix "IndexError" e then
          Except.error "ValueError: File is missing metadata or metadata is invalid."
        else Except.error e
    | Except.ok m => Except.ok m
  if md.fps = 0 then Except.error "ZeroDivisionError: division by zero"
  else Except.ok (md, 1 / md.fps)

/-- Claim C1: the claim states that `overlay` writes each source cell at the
coordinate offset, silently skips destination positions outside `[0, size)`,
and that a source entirely outside the destination (including at negative
coordinates) leaves the destination unchanged, raises nothing, and returns
`changed = false`.  The code instead raises AttributeError on every call: its
first statement assigns a plain tuple to `other.size.screen_size`, and the
`Coordinate.screen_size` setter reads `.x` on that tuple.  The spec-modelled
overlay on the same input returns the destination unchanged with
`changed = false`. -/
theorem overlay_tuple_screen_size_demo :
    PixelGrid.overlay demoDest demoSrcOutside =
      Except.error "AttributeError: tuple object has no attribute x" ∧
    specOverlay demoDest demoSrcOutside = (demoDest, false) :=
  ⟨rfl, rfl⟩

/-- The diff over one row succeeds when the previous row is at least as long as
the current one, and emits exactly one positioning command per changed cell. -/
theorem rowDiffCmds_ok (c : List Pixel) : ∀ (off y : Nat) (p : List Pixel),
    c.length ≤ p.length →
    ∃ l, rowDiffCmds off y c p = Except.ok l ∧
      countSetPos l = (c.zip p).countP (fun q => decide (q.1 ≠ q.2)) := by
  induction c with
  | nil =>
      intro off y p _
      exact ⟨[], rfl, by simp [countSetPos]⟩
  | cons a as ih =>
      intro off y p hlen
      cases p with
      | nil => simp at hlen
      | cons b bs =>
          obtain ⟨l, hl, hc⟩ := ih (off + 1) y bs (by simpa using hlen)
          refine ⟨(if a ≠ b then [TermCmd.setPos off y, TermCmd.write a.printable_str]
              else []) ++ l, ?_, ?_⟩
          · simp only [rowDiffCmds, hl]
            rfl
          · by_cases hab : a = b
            · simp [hab, countSetPos, List.countP_append, List.countP_cons] at hc ⊢
              exact hc
            · simp [hab, countSetPos, List.countP_append, List.countP_cons] at hc ⊢
              omega

/-- The full diff loop succeeds when the grids have the same number of rows and
each previous row is at least as long as its current row; it emits exactly one
positioning command per changed cell. -/
theorem gridDiffCmds_ok (cur : List (List Pixel)) : ∀ (y : Nat) (prev : List (List Pixel)),
    cur.length = prev.length →
    (∀ q ∈ cur.zip prev, q.1.length ≤ q.2.length) →
    ∃ l, gridDiffCmds y cur prev = Except.ok l ∧
      countSetPos l = changedCellCount cur prev := by
  induction cur with
  | nil =>
      intro y prev _ _
      exact ⟨[], rfl, by simp [countSetPos, changedCellCount]⟩
  | cons c cs ih =>
      intro y prev hlen hall
      cases prev with
      | nil => simp at hlen
      | cons p ps =>
          obtain ⟨l1, hl1, hc1⟩ := rowDiffCmds_ok c 0 y p
            (hall (c, p) (by simp))
          obtain ⟨l2, hl2, hc2⟩ := ih (y + 1) ps (by simpa using hlen)
            (fun q hq => hall q (by simp [hq]))
          refine ⟨l1 ++ l2, ?_, ?_⟩
          · simp only [gridDiffCmds, hl1, hl2]
            rfl
          · simp [countSetPos, List.countP_append, changedCellCount] at hc1 hc2 ⊢
            omega

/-- Claim C2 (counterexample): previous is the all-space 1x4 row and current
differs in one contiguous run of two cells, yet the incremental refresh emits
three positioning commands — one per changed cell plus the final home — where
the claim predicts two (one for the whole run plus the final home).  There is
no string buffer in the loop: `display.py` lines 76-80 call `cursor.set_pos`
separately for every changed pixel (its own comment marks buffering as a
TODO). -/
theorem anti_flash_run_counterexample :
    (antiFlashRefreshDisplay demoRunState).map (fun r => countSetPos r.1) =
      Except.ok 3 ∧ (3 : Nat) ≠ 2 :=
  ⟨rfl, by decide⟩

/-- Claim C2 (amended): for same-size grids held as distinct objects (every
reachable `Display` state), the incremental refresh succeeds, emits exactly one
cursor-positioning command per changed cell — not one per contiguous run —
plus the single final home command, and afterwards `previous` equals
`current`. -/
theorem anti_flash_per_cell_positioning (st : DisplayState)
    (h1 : st.prev_is_same_object = false)
    (h2 : st.previous.size_x = st.current.size_x)
    (h3 : st.previous.size_y = st.current.size_y)
    (h4 : st.current.cells.length = st.previous.cells.length)
    (h5 : ∀ q ∈ st.current.cells.zip st.previous.cells, q.1.length ≤ q.2.length) :
    ∃ cmds, antiFlashRefreshDisplay st =
        Except.ok (cmds, { st with previous := st.current, prev_is_same_object := false }) ∧
      countSetPos cmds = changedCellCount st.current.cells st.previous.cells + 1 := by
  obtain ⟨l, hl, hc⟩ := gridDiffCmds_ok st.current.cells 0 st.previous.cells h4 h5
  refine ⟨l ++ [TermCmd.setPos 0 0, TermCmd.flush], ?_, ?_⟩
  · simp only [antiFlashRefreshDisplay, h1, h2, h3, h4, hl]
    simp
  · simp only [countSetPos, List.countP_append] at hc ⊢
    rw [hc]
    rfl

/-- Witness for the amended C2 theorem at the concrete one-run state. -/
theorem anti_flash_per_cell_positioning_witness :
    ∃ cmds, antiFlashRefreshDisplay demoRunState =
        Except.ok (cmds,
          { demoRunState with previous := demoRunState.current, prev_is_same_object := false }) ∧
      countSetPos cmds =
        changedCellCount demoRunState.current.cells demoRunState.previous.cells + 1 :=
  anti_flash_per_cell_positioning demoRunState rfl rfl rfl rfl (by decide)

/-- Claim C3: the incremental refresh is claimed to perform no terminal output
when current and previous are content-equal, via a real content-equality test.
In the code the skip test `current == previous` is object identity (PixelGrid
defines no `__eq__`), and `previous` is always a deepcopy, so on the concrete
reachable state whose two grids are pixel-for-pixel equal the skip does not
fire and the refresh still emits a cursor-home and a flush. -/
theorem anti_flash_identity_skip_demo :
    demoEqState.current = demoEqState.previous ∧
    antiFlashRefreshDisplay demoEqState =
      Except.ok ([TermCmd.setPos 0 0, TermCmd.flush], demoEqState) :=
  ⟨rfl, rfl⟩

/-- Claim C4 (counterexample): a dirty screen holding exactly one *invisible*
1x1 object.  The claim says recomposition overlays only the visible objects, so
the composed grid would be the cleared screen grid (as the spec-modelled
composition confirms); the code instead passes the invisible object's grid to
`overlay`, whose first statement raises AttributeError (the tuple assigned to
`Coordinate.screen_size` has no attribute `x`). -/
theorem refresh_invisible_object_counterexample :
    Screen.refresh demoScreenInv =
      Except.error "AttributeError: tuple object has no attribute x" ∧
    specCompose demoScreenInv = demoScreenInv.grid.clear :=
  ⟨rfl, rfl⟩

/-- Claim C4 (amended): `Screen._refresh` clears the screen grid and then calls
`overlay` for every object in the list — visible or invisible alike, there is
no visibility filter — and since every `overlay` call raises AttributeError at
its tuple `screen_size` assignment, recomposition raises whenever the screen
holds at least one object (even a single invisible one); only a screen with no
objects at all recomposes, to the cleared grid. -/
theorem refresh_raises_on_any_object (s : Screen) :
    (s.objects = [] →
      Screen.refresh s =
        Except.ok { s with grid := s.grid.clear, objects := [], should_draw := false }) ∧
    (s.objects ≠ [] →
      Screen.refresh s =
        Except.error "AttributeError: tuple object has no attribute x") := by
  constructor
  · intro h
    simp [Screen.refresh, h, overlayAll]
  · intro h
    cases hobj : s.objects with
    | nil => exact absurd hobj h
    | cons o os => simp [Screen.refresh, hobj, overlayAll, PixelGrid.overlay]

/-- Witness for the amended C4 theorem: the empty screen recomposes to its
cleared grid, and the screen whose only object is invisible makes
recomposition raise. -/
theorem refresh_raises_on_any_object_witness :
    Screen.refresh demoEmptyScreen =
      Except.ok
        { demoEmptyScreen with grid := demoEmptyScreen.grid.clear, objects := [], should_draw := false } ∧
    Screen.refresh demoScreenInv =
      Except.error "AttributeError: tuple object has no attribute x" :=
  ⟨(refresh_raises_on_any_object demoEmptyScreen).1 rfl,
   (refresh_raises_on_any_object demoScreenInv).2 (by simp [demoScreenInv])⟩

/-- Claim C5 (counterexample): one visible 1x1 object at the origin and the
mouse at (0, 0).  The spec-modelled hit test selects that object with local
position (0, 0); the code raises AttributeError on the first containment test
(it reads the nonexistent attributes `coordinates.char_y` and `grid.height`),
so no object is selected and no `mouse_over` is assigned or cleared. -/
theorem hit_test_attribute_error_counterexample :
    specHitTest [demoHitObj] (0, 0) = some (demoHitObj, (0, 0)) ∧
    get_object_by_coordinates [demoHitObj] (0, 0) =
      Except.error "AttributeError: Coordinate object has no attribute char_y" :=
  ⟨rfl, rfl⟩

/-- Claim C5 (amended): for every screen state and mouse character-position,
`get_object_by_coordinates` returns no object when the screen has no terminal
objects, and raises AttributeError as soon as at least one object is present —
its containment test reads attributes (`coordinates.char_y`, `grid.height`)
that `Coordinate` and `PixelGrid` do not define — so mouse hit-testing never
selects an object and never assigns or clears any `mouse_over`. -/
theorem hit_test_empty_or_raises (objs : List ScreenObj) (p : Int × Int) :
    (objs = [] → get_object_by_coordinates objs p = Except.ok none) ∧
    (objs ≠ [] →
      get_object_by_coordinates objs p =
        Except.error "AttributeError: Coordinate object has no attribute char_y") := by
  cases objs with
  | nil => exact ⟨fun _ => rfl, fun h => absurd rfl h⟩
  | cons a as => exact ⟨fun h => absurd h (List.cons_ne_nil a as), fun _ => rfl⟩

/-- Witness for the amended C5 theorem on the empty screen and on the
one-object screen. -/
theorem hit_test_empty_or_raises_witness :
    get_object_by_coordinates ([] : List ScreenObj) (0, 0) = Except.ok none ∧
    get_object_by_coordinates [demoHitObj] (0, 0) =
      Except.error "AttributeError: Coordinate object has no attribute char_y" :=
  ⟨(hit_test_empty_or_raises [] (0, 0)).1 rfl,
   (hit_test_empty_or_raises [demoHitObj] (0, 0)).2 (by simp)⟩

/-- Claim C6: assigning one of `value`/`char_value`/`percent_value` is claimed
to recompute the other two, keeping `char_value == percent_value *
reference_extent` and (on a CHAR axis) `value == v` after `char_value = v`.
On the CHAR-unit axis with value 5 and extent 20, assigning `char_value = 10`
leaves `value = 5` (the setter re-reads the stale `_value` through
`_get_value(CHAR)`) and `percent_value = 1/4`, so the claimed invariant
`char_value = percent_value * extent` fails (10 vs 5); and the `value` setter's
"recomputations" are self-assignments, so after `value = 7` the char view still
reads 0. -/
theorem axis_setters_stale_value_demo :
    ((mkAxis 5 UnitNames.CHAR 20).set_char_value 10).value = 5 ∧
    ((mkAxis 5 UnitNames.CHAR 20).set_char_value 10).char_value = 10 ∧
    ((mkAxis 5 UnitNames.CHAR 20).set_char_value 10).percent_value = 1 / 4 ∧
    ((mkAxis 5 UnitNames.CHAR 20).set_char_value 10).char_value ≠
      ((mkAxis 5 UnitNames.CHAR 20).set_char_value 10).percent_value *
        ((mkAxis 5 UnitNames.CHAR 20).set_char_value 10).axis_size ∧
    ((mkAxis 0 UnitNames.CHAR 20).set_value 7).value = 7 ∧
    ((mkAxis 0 UnitNames.CHAR 20).set_value 7).char_value = 0 := by
  refine ⟨rfl, rfl, by norm_num [mkAxis, Axis.set_char_value, Axis.get_value,
    Axis.get_percent_value, Axis.get_char_value], ?_, rfl, rfl⟩
  norm_num [mkAxis, Axis.set_char_value, Axis.get_value,
    Axis.get_percent_value, Axis.get_char_value]

/-- Processing the reset color sends any reduced state to the same fixed state
(all buckets cleared, then the reset itself filed under "other"). -/
theorem stepColor_reset (s : ThemeState) :
    stepColor s colorsEnd =
      { fg := none, bg := none, styles := [], others := [colorsEnd] } := rfl

/-- Reducing a color list containing the reset color gives the same state as
reducing with everything before the reset omitted, from any starting states:
the reset forgets all accumulated state. -/
theorem list_to_theme_reset (s1 s2 : ThemeState) (pre post : List Color) :
    list_to_theme s1 (pre ++ colorsEnd :: post) =
      list_to_theme s2 (colorsEnd :: post) := by
  simp only [list_to_theme, List.foldl_append, List.foldl_cons,
    stepColor_reset]

/-- Claim C7: the first half of the claim (a RESET erases everything before
it) holds — see `list_to_theme_reset` — but the second half fails:
`add_colors` re-runs `_list_to_theme` over buckets that were never cleared, so
re-reducing duplicates accumulated style colors.  Adding BLUE to the theme
built from [BOLD] serializes with BOLD twice, unlike the theme freshly
constructed from [BOLD, BLUE]. -/
theorem add_colors_duplicates_styles_demo :
    (add_colors (mkPixelTheme [boldColor]) [blueColor]).str_value =
      "\x1b[1m\x1b[1m\x1b[34m" ∧
    (mkPixelTheme [boldColor, blueColor]).str_value = "\x1b[1m\x1b[34m" ∧
    (add_colors (mkPixelTheme [boldColor]) [blueColor]).str_value ≠
      (mkPixelTheme [boldColor, blueColor]).str_value :=
  ⟨rfl, rfl, by decide⟩

/-- Claim C8 (counterexample): the claim says every Axis with reference extent
0 reads `percent_value` as 0; a PERCENT-unit axis with stored value 5 and
extent 0 reads `percent_value = 5` (the stored value is returned directly,
without division). -/
theorem percent_axis_zero_extent_counterexample :
    (mkAxis 5 UnitNames.PERCENT 0).percent_value = 5 ∧ (5 : ℚ) ≠ 0 :=
  ⟨rfl, by norm_num⟩

/-- Claim C8 (amended): for reference extent e > 0, converting a CHAR value to
PERCENT and back to CHAR reproduces the value exactly, and a CHAR-unit axis
with reference extent 0 reads `percent_value` as 0 (the division is guarded);
the conversions are total, so no read raises.  (A PERCENT-unit axis with
extent 0 returns its stored value, not 0.) -/
theorem axis_char_percent_roundtrip (v e : ℚ) :
    (e > 0 →
      (mkAxis (mkAxis v UnitNames.CHAR e).percent_value UnitNames.PERCENT e).char_value
        = v) ∧
    (mkAxis v UnitNames.CHAR 0).percent_value = 0 := by
  constructor
  · intro he
    have hne : e ≠ 0 := ne_of_gt he
    simp only [mkAxis, Axis.get_percent_value, Axis.get_char_value, hne]
    simp [hne, div_mul_cancel₀]
  · simp [mkAxis, Axis.get_percent_value]

/-- Witness for the amended C8 theorem at v = 3, e = 2. -/
theorem axis_char_percent_roundtrip_witness :
    (0 : ℚ) < 2 ∧
    (mkAxis (mkAxis 3 UnitNames.CHAR 2).percent_value UnitNames.PERCENT 2).char_value
      = 3 :=
  ⟨by norm_num, (axis_char_percent_roundtrip 3 2).1 (by norm_num)⟩

/-- Claim C9: a metadata line with three colon-separated fields (frame count
and fps omitted) is parsed by `_extract_metadata` into a single static frame
with `fps = 0.0` — exactly as the claim says — but `_get_grids_from_file` then
computes `frame_delay = 1 / fps` unconditionally, so loading such a file raises
ZeroDivisionError instead of succeeding. -/
theorem static_image_metadata_zero_division_demo :
    extract_metadata "2:2:" =
      Except.ok { height := 2, width := 2, base_colors := "\x1b[0m",
                  frame_count := 1, fps := 0 } ∧
    loadImageMetadata "2:2:" =
      Except.error "ZeroDivisionError: division by zero" :=
  ⟨rfl, rfl⟩

/-- Claim C10: `Screen.add_object` and `Screen.remove_object` each assign
`should_draw := obj.visible` — an overwrite, not a logical or — so adding or
removing an invisible object while a redraw is pending resets `should_draw` to
false. -/
theorem add_remove_overwrite_should_draw (s : Screen) (o : ScreenObj) :
    (s.add_object o).should_draw = o.visible ∧
    (s.remove_object o).should_draw = o.visible :=
  ⟨rfl, rfl⟩
